import Mathlib

/-!
Verification development for the yoga-teaching-journal repository
(`yoga_teacher_streamlit_app.py` and `github_files/setup_yoga_database.py`).

The Python code is shallowly embedded: user-supplied text is a `List Char`
(one entry per Python character), the class-log submit handler, the
sequence-notes JSON document construction, the history-browser search
predicate, the provisioning script and the dashboard's client-side rolling
mean are all translated into executable Lean definitions.  The hosted
warehouse is an external collaborator: `PARSE_JSON` composed with
`json.dumps` on a document the app builds is modelled as the identity on
that document, and the statements the app would execute are modelled as the
statement text itself.
-/

/-! ## Characters that are syntactically special in the embedded text -/

/-- The single-quote character `'` (code 39). -/
def qc : Char := Char.ofNat 39

/-- The double-quote character `"` (code 34). -/
def dq : Char := Char.ofNat 34

/-- The backslash character (code 92). -/
def bsl : Char := Char.ofNat 92

/-- The left-brace character (code 123). -/
def lbr : Char := Char.ofNat 123

/-- The right-brace character (code 125). -/
def rbr : Char := Char.ofNat 125

/-! ## Single-quote escaping

`yoga_teacher_streamlit_app.py` line 494-497: `log_peak.replace("'", "''")`
etc.  Python `str.replace` rewrites every occurrence left to right. -/

/-- Embedding of Python `s.replace("'", "''")`: every single quote is
doubled, all other characters pass through. -/
def escQ : List Char → List Char
  | [] => []
  | ch :: t => if ch = qc then qc :: qc :: escQ t else ch :: escQ t

/-- Number of single-quote characters in a piece of text. -/
def countQ (s : List Char) : Nat := s.countP (fun ch => ch == qc)

/-- Spec-side description of quote doubling: each single-quote character is
replaced by two, independently of the rest of the text. -/
def dupEachQuote (s : List Char) : List Char :=
  (s.map (fun ch => if ch == qc then [qc, qc] else [ch])).flatten

theorem escQ_eq_dupEachQuote (s : List Char) : escQ s = dupEachQuote s := by
  induction s with
  | nil => rfl
  | cons ch t ih =>
      by_cases h : ch = qc <;>
        simp [escQ, dupEachQuote, h] <;>
        simpa [dupEachQuote] using ih

theorem countQ_escQ (s : List Char) : countQ (escQ s) = 2 * countQ s := by
  induction s with
  | nil => rfl
  | cons ch t ih =>
      by_cases h : ch = qc
      · simp [escQ, h, countQ, List.countP_cons] at ih ⊢
        omega
      · have hb : (ch == qc) = false := by
          simp [h]
        simp [escQ, h, countQ, List.countP_cons, hb] at ih ⊢
        omega

/-! ## Python `split(', ')` and `', '.join(...)`

`yoga_teacher_streamlit_app.py` line 502 stores the standing sequence as
`seq_standing.split(', ')`; line 1061 renders a stored list back with
`', '.join(value)`. -/

/-- The two-character separator `", "` used by the app. -/
def sepCS : List Char := [',', ' ']

/-- First occurrence of the separator `", "`: returns the text before it and
the text after it, or `none` when the separator does not occur. -/
def splitFirstCS : List Char → Option (List Char × List Char)
  | [] => none
  | ch :: t =>
      if sepCS.isPrefixOf (ch :: t) then some ([], (ch :: t).drop 2)
      else
        match splitFirstCS t with
        | some (b, a) => some (ch :: b, a)
        | none => none

theorem splitFirstCS_eq (s b a : List Char) (h : splitFirstCS s = some (b, a)) :
    s = b ++ sepCS ++ a := by
  induction s generalizing b a with
  | nil => simp [splitFirstCS] at h
  | cons ch t ih =>
      by_cases hp : sepCS.isPrefixOf (ch :: t)
      · simp only [splitFirstCS, hp, if_pos, Option.some.injEq, Prod.mk.injEq] at h
        obtain ⟨hb, ha⟩ := h
        have hpre : sepCS <+: (ch :: t) := by
          exact (List.isPrefixOf_iff_prefix).1 hp
        obtain ⟨rest, hrest⟩ := hpre
        have hdrop : (ch :: t).drop 2 = rest := by
          rw [← hrest]; rfl
        rw [← hb, ← ha, hdrop, ← hrest]
        rfl
      · simp only [splitFirstCS, hp, if_neg] at h
        cases hsp : splitFirstCS t with
        | none => rw [hsp] at h; simp at h
        | some p =>
            obtain ⟨b2, a2⟩ := p
            rw [hsp] at h
            simp at h
            obtain ⟨hb, ha⟩ := h
            have := ih b2 a2 hsp
            subst ha
            rw [← hb]
            simp [this]

theorem splitFirstCS_shrink (s b a : List Char)
    (h : splitFirstCS s = some (b, a)) : a.length < s.length := by
  have := splitFirstCS_eq s b a h
  rw [this]
  simp [sepCS]
  omega

/-- Fuel-bounded splitting loop: each found separator consumes at least
two characters, so `s.length + 1` units of fuel always suffice. -/
def splitCSFuel : Nat → List Char → List (List Char)
  | 0, s => [s]
  | n + 1, s =>
      match splitFirstCS s with
      | none => [s]
      | some (b, a) => b :: splitCSFuel n a

/-- Embedding of Python `s.split(', ')` (a character-list version of
`str.split` with an explicit two-character separator): cut at each
non-overlapping occurrence of `", "` from the left. -/
def splitCS (s : List Char) : List (List Char) := splitCSFuel (s.length + 1) s

/-- Embedding of Python `', '.join(xs)`. -/
def joinCS : List (List Char) → List Char
  | [] => []
  | [x] => x
  | x :: y :: t => x ++ sepCS ++ joinCS (y :: t)

theorem splitCSFuel_ne_nil (n : Nat) (s : List Char) : splitCSFuel n s ≠ [] := by
  cases n with
  | zero => simp [splitCSFuel]
  | succ m =>
      cases h : splitFirstCS s with
      | none => simp [splitCSFuel, h]
      | some p => obtain ⟨b, a⟩ := p; simp [splitCSFuel, h]

theorem joinCS_cons (x : List Char) (ys : List (List Char)) (h : ys ≠ []) :
    joinCS (x :: ys) = x ++ sepCS ++ joinCS ys := by
  cases ys with
  | nil => exact absurd rfl h
  | cons y t => rfl

theorem joinCS_splitCSFuel (n : Nat) (s : List Char) (h : s.length < n) :
    joinCS (splitCSFuel n s) = s := by
  induction n generalizing s with
  | zero => omega
  | succ m ih =>
      cases hsp : splitFirstCS s with
      | none => simp [splitCSFuel, hsp, joinCS]
      | some p =>
          obtain ⟨b, a⟩ := p
          have hlt := splitFirstCS_shrink s b a hsp
          simp only [splitCSFuel, hsp]
          rw [joinCS_cons b (splitCSFuel m a) (splitCSFuel_ne_nil m a)]
          rw [ih a (by omega)]
          exact (splitFirstCS_eq s b a hsp).symm

/-- Splitting on `", "` and joining with `", "` is the identity: what the
user typed into the standing-sequence field is exactly what the history view
prints back. -/
theorem joinCS_splitCS (s : List Char) : joinCS (splitCS s) = s :=
  joinCS_splitCSFuel (s.length + 1) s (Nat.lt_succ_self _)

/-! ## The sequence-notes JSON document

`yoga_teacher_streamlit_app.py` lines 499-510: the submit handler builds a
Python dict from the five sub-form fields (a key is added only when the
field is truthy: non-empty text, non-zero number), serializes it with
`json.dumps`, and embeds the result in a `PARSE_JSON('...')` call, or uses
`NULL` when the dict is empty. -/

/-- A JSON value as the app produces them: a string, a list of strings
(the split standing sequence), or an integer (the savasana minutes). -/
inductive JVal where
  | str (v : List Char)
  | arr (vs : List (List Char))
  | num (v : Nat)
deriving DecidableEq

/-- Lower-case hexadecimal digit, as CPython's JSON encoder emits them. -/
def hexDigit (n : Nat) : Char :=
  if n % 16 < 10 then Char.ofNat (48 + n % 16) else Char.ofNat (87 + n % 16)

/-- Four-digit hexadecimal rendering used by `\uXXXX` escapes. -/
def hex4 (n : Nat) : List Char :=
  [hexDigit (n / 4096), hexDigit (n / 256), hexDigit (n / 16), hexDigit n]

/-- Embedding of CPython `json.dumps` string-character escaping (default
`ensure_ascii=True`): double quote and backslash get a backslash escape,
the usual control shorthands apply, other control characters and all
non-ASCII characters become `\uXXXX` (with a surrogate pair above the BMP).
Every other character — the single quote included — passes through
unchanged. -/
def jsonEscChar (c : Char) : List Char :=
  if c = dq then [bsl, dq]
  else if c = bsl then [bsl, bsl]
  else if c = Char.ofNat 10 then [bsl, 'n']
  else if c = Char.ofNat 9 then [bsl, 't']
  else if c = Char.ofNat 13 then [bsl, 'r']
  else if c = Char.ofNat 8 then [bsl, 'b']
  else if c = Char.ofNat 12 then [bsl, 'f']
  else if c.toNat < 32 then bsl :: 'u' :: hex4 c.toNat
  else if c.toNat < 127 then [c]
  else if c.toNat < 65536 then bsl :: 'u' :: hex4 c.toNat
  else
    (bsl :: 'u' :: hex4 (55296 + (c.toNat - 65536) / 1024)) ++
      (bsl :: 'u' :: hex4 (56320 + (c.toNat - 65536) % 1024))

/-- `json.dumps` escaping applied to a whole string. -/
def jsonEscStr (s : List Char) : List Char := (s.map jsonEscChar).flatten

/-- Decimal rendering of a number, as Python `str`/`json.dumps` print it. -/
def natLit (n : Nat) : List Char := (Nat.repr n).data

/-- `json.dumps` rendering of one JSON value (default separators, so list
elements are joined with `", "`). -/
def jsonShowVal : JVal → List Char
  | .str v => dq :: (jsonEscStr v ++ [dq])
  | .arr vs => '[' :: (joinCS (vs.map (fun v => dq :: (jsonEscStr v ++ [dq]))) ++ [']'])
  | .num n => natLit n

/-- `json.dumps` rendering of one `"key": value` member. -/
def jsonShowMember (kv : List Char × JVal) : List Char :=
  dq :: (jsonEscStr kv.1 ++ [dq] ++ (':' :: ' ' :: jsonShowVal kv.2))

/-- Embedding of `json.dumps` on the sequence-notes dict (default
separators `", "` / `": "`, keys in insertion order). -/
def jsonDumps (doc : List (List Char × JVal)) : List Char :=
  lbr :: (joinCS (doc.map jsonShowMember) ++ [rbr])

/-- The sequence-notes dict of lines 500-505: one key per truthy sub-field,
in source order; the standing text is stored split on `", "`, the savasana
minutes as a number (omitted when `0`, since `0` is falsy in Python). -/
def seqNotesDict (w s p c : List Char) (sav : Nat) : List (List Char × JVal) :=
  (if w ≠ [] then [("warmup".data, JVal.str w)] else []) ++
  (if s ≠ [] then [("standing".data, JVal.arr (splitCS s))] else []) ++
  (if p ≠ [] then [("peak".data, JVal.str p)] else []) ++
  (if c ≠ [] then [("cooldown".data, JVal.str c)] else []) ++
  (if sav ≠ 0 then [("savasana_minutes".data, JVal.num sav)] else [])

/-- The SQL fragment of line 510: `PARSE_JSON('<json.dumps output>')` when
the dict is non-empty, `NULL` otherwise. -/
def seqNotesValueSql (w s p c : List Char) (sav : Nat) : List Char :=
  if seqNotesDict w s p c sav = [] then "NULL".data
  else "PARSE_JSON(".data ++ [qc] ++ jsonDumps (seqNotesDict w s p c sav) ++ [qc] ++ [')']

/-- The value of the `sequence_notes` column after the insert: `NULL` when
the dict was empty, otherwise the document itself.  The warehouse is an
external collaborator: `PARSE_JSON` applied to the `json.dumps` output of a
document is modelled as that document. -/
def storedSeqNotes (w s p c : List Char) (sav : Nat) :
    Option (List (List Char × JVal)) :=
  if seqNotesDict w s p c sav = [] then none else some (seqNotesDict w s p c sav)

/-- Association-list lookup on the decoded document (Python `dict` access
by key during `seq.items()` iteration). -/
def lookupKey (k : List Char) : List (List Char × JVal) → Option JVal
  | [] => none
  | (k2, v) :: t => if k2 = k then some v else lookupKey k t

/-- History-view rendering of one decoded sub-field value, lines 1059-1063:
a list is printed as `', '.join(value)`, any other value via `str`. -/
def renderVal : JVal → List Char
  | .str v => v
  | .arr vs => joinCS vs
  | .num n => natLit n

/-! ## The class-log submit handler

`yoga_teacher_streamlit_app.py` lines 489-543.  `day_of_week` is produced
by `log_date.strftime("%A")` and `log_date`/`log_time` are rendered by
Python `str` — all external to the handler, so the form carries their text.
The statement text is assembled exactly as the f-string does (surrounding
whitespace normalized to one newline per line). -/

/-- The scalar state of the Log Class form at submit time.  `locId`, `ctId`
and `themeId` are `none` when no selection was produced (lines 399, 420,
430). -/
structure LogForm where
  logDate : List Char
  logTime : List Char
  dayOfWeek : List Char
  locId : Option Nat
  ctId : Option Nat
  themeId : Option Nat
  customTheme : List Char
  intention : List Char
  peakPose : List Char
  energy : List Char
  students : Nat
  vibe : Nat
  notes : List Char
  seqWarmup : List Char
  seqStanding : List Char
  seqPeak : List Char
  seqCooldown : List Char
  seqSavasana : Nat
deriving DecidableEq

/-- Python truthiness of an optional integer id (`if selected_location_id
and selected_class_type_id:`): `None` and `0` are falsy. -/
def truthyId : Option Nat → Bool
  | none => false
  | some n => n != 0

/-- Line 508: `str(selected_theme_id) if selected_theme_id else "NULL"`. -/
def themeIdValueSql : Option Nat → List Char
  | none => "NULL".data
  | some n => if n ≠ 0 then natLit n else "NULL".data

/-- Lines 497 and 509: the custom theme is escaped when non-empty, then
quoted; an empty custom theme yields `NULL`. -/
def customThemeValueSql (ct : List Char) : List Char :=
  if ct = [] then "NULL".data else [qc] ++ escQ ct ++ [qc]

/-- A value wrapped in SQL single quotes, as the f-string pieces do. -/
def sqQ (s : List Char) : List Char := [qc] ++ s ++ [qc]

/-- Lines joined each behind one newline character. -/
def nlJoin (xs : List (List Char)) : List Char :=
  (xs.map (fun l => Char.ofNat 10 :: l)).flatten

/-- The INSERT statement text of lines 512-533.  Scalar free-text fields
pass through `escQ` (lines 494-497); the sequence-notes sub-fields are
embedded only through `json.dumps` inside `seqNotesValueSql`.  `locId` and
`ctId` are read inside the truthy branch, hence `getD 0` never applies. -/
def buildInsertSql (f : LogForm) : List Char :=
  nlJoin [
    "INSERT INTO CLASSES_TAUGHT (".data,
    "class_date, class_time, day_of_week, location_id, class_type_id,".data,
    "theme_id, custom_theme, intention, peak_pose,".data,
    "sequence_notes, energy_level, student_count, vibe_rating, personal_notes".data,
    ")".data,
    "SELECT".data,
    sqQ f.logDate ++ [','],
    sqQ f.logTime ++ [','],
    sqQ f.dayOfWeek ++ [','],
    natLit (f.locId.getD 0) ++ [','],
    natLit (f.ctId.getD 0) ++ [','],
    themeIdValueSql f.themeId ++ [','],
    customThemeValueSql f.customTheme ++ [','],
    sqQ (escQ f.intention) ++ [','],
    sqQ (escQ f.peakPose) ++ [','],
    seqNotesValueSql f.seqWarmup f.seqStanding f.seqPeak f.seqCooldown
      f.seqSavasana ++ [','],
    sqQ f.energy ++ [','],
    natLit f.students ++ [','],
    natLit f.vibe ++ [','],
    sqQ (escQ f.notes) ]

/-- Outcome reported by the submit handler. -/
inductive SubmitOutcome where
  | success
  | validationError
deriving DecidableEq

/-- The `Log This Class` submit handler, lines 489-543: when both the
location and the class type selection are truthy, build and execute exactly
one INSERT; otherwise report `Please select a location and class type.` and
execute nothing.  The second component lists the statements executed. -/
def submitClassLog (f : LogForm) : SubmitOutcome × List (List Char) :=
  if truthyId f.locId && truthyId f.ctId then
    (SubmitOutcome.success, [buildInsertSql f])
  else
    (SubmitOutcome.validationError, [])

/-! ## Substring search used by claims about the statement text -/

/-- `containsSub pat hay` holds when `pat` occurs contiguously in `hay`
(the semantics of SQL `LIKE '%pat%'` without wildcard characters). -/
def containsSub (pat : List Char) : List Char → Bool
  | [] => pat.isEmpty
  | ch :: t => pat.isPrefixOf (ch :: t) || containsSub pat t

theorem containsSub_append (pat a b : List Char) :
    containsSub pat (a ++ pat ++ b) = true := by
  induction a with
  | nil =>
      simp only [List.nil_append]
      cases hpb : pat ++ b with
      | nil =>
          have hp : pat = [] := (List.append_eq_nil.1 hpb).1
          simp [containsSub, hp]
      | cons ch t =>
          have hpre : pat <+: (ch :: t) := by
            rw [← hpb]; exact List.prefix_append pat b
          simp [containsSub, List.isPrefixOf_iff_prefix, hpre]
  | cons ch a2 ih =>
      have ih2 : containsSub pat (a2 ++ (pat ++ b)) = true := by
        simpa using ih
      simp [containsSub, ih2]

/-! ## Effective theme and the history-browser search

The effective theme is `COALESCE(t.theme_name, c.custom_theme)` — the
expression used by the history query (line 986), the AI prompt queries
(lines 719, 751, 853) and the `THEME_STATS` view
(`setup_yoga_database.py` lines 275-287). -/

/-- SQL `COALESCE` over two nullable values: the first non-null one. -/
def sqlCoalesce {α : Type} : Option α → Option α → Option α
  | some x, _ => some x
  | none, b => b

/-- Python `str.lower` / SQL `LOWER`, character-wise. -/
def lowerL (s : List Char) : List Char := s.map Char.toLower

/-- Line 429-435: the typed theme text is matched case-insensitively
against the catalog; the first matching theme id (if any) is linked. -/
def matchedThemeId (custom : List Char) (themes : List (Nat × List Char)) :
    Option Nat :=
  if custom = [] then none
  else
    match themes.find? (fun t => lowerL t.2 == lowerL custom) with
    | some t => some t.1
    | none => none

/-- One row as seen by the history-browser search condition: the three
searched text columns, each nullable (line 1010-1014). -/
structure HistRow where
  themeName : Option (List Char)
  customTheme : Option (List Char)
  personalNotes : Option (List Char)
  peakPose : Option (List Char)
deriving DecidableEq

/-- `LOWER(col) LIKE '%pat%'` for a nullable column: `NULL` never matches. -/
def optLowerContains (pat : List Char) : Option (List Char) → Bool
  | none => false
  | some v => containsSub pat (lowerL v)

/-- The search condition of lines 1008-1014.  The code interpolates
`search_term.replace("'", "''").lower()` into `'%...%'`; the doubled quote
is SQL string-literal quoting, so the pattern the warehouse matches is the
lower-cased term itself. -/
def rowMatchesSearch (term : List Char) (r : HistRow) : Bool :=
  optLowerContains (lowerL term) (sqlCoalesce r.themeName r.customTheme) ||
  optLowerContains (lowerL term) r.personalNotes ||
  optLowerContains (lowerL term) r.peakPose

/-- The row set produced by the search part of the history query: the
condition is appended only when the term is truthy (line 1008). -/
def searchFilter (term : List Char) (rows : List HistRow) : List HistRow :=
  if term = [] then rows else rows.filter (rowMatchesSearch term)

/-! ## Read-failure handling

Dashboard reads (lines 554-578, 587-610, 614-633, 639-697) catch any
exception and show `st.info(...)`; the history read (lines 1018-1072)
catches and shows `st.error(f"Error loading history: {str(e)}")`. -/

/-- The application's five guarded read paths. -/
inductive ReadPath where
  | overallStats
  | locationStats
  | classTypeStats
  | dailyStudents
  | historyBrowser
deriving DecidableEq

/-- What a failed read surfaces in the UI. -/
inductive FailureUI where
  | infoMsg (m : List Char)
  | errorMsg (m : List Char)
deriving DecidableEq

/-- Whether the surfaced element is an informational message. -/
def FailureUI.isInfoMsg : FailureUI → Bool
  | .infoMsg _ => true
  | .errorMsg _ => false

/-- The `except` branch of each read path, given the exception text `e`. -/
def onReadFailure (p : ReadPath) (e : List Char) : FailureUI :=
  match p with
  | .overallStats => .infoMsg "Log some classes to see your stats!".data
  | .locationStats => .infoMsg "No location data yet.".data
  | .classTypeStats => .infoMsg "No class type data yet.".data
  | .dailyStudents => .infoMsg "Not enough data for student trends yet.".data
  | .historyBrowser => .errorMsg ("Error loading history: ".data ++ e)

/-! ## The Schema Provisioner

`github_files/setup_yoga_database.py`: warehouse, database and the two
schemas are created with `IF NOT EXISTS`; the six tables and three views
with `CREATE OR REPLACE`; reference and sample rows with plain `INSERT`.
`USE` statements set session context only and do not change durable state.
DDL text is carried verbatim with whitespace condensed to single spaces;
each inserted row is carried as its list of literal field texts. -/

/-- Durable warehouse-side state the script manipulates. -/
structure WhState where
  warehouses : List String
  databases : List String
  schemas : List String
  tables : List (String × String × List (List String))
  views : List (String × String)
deriving DecidableEq

/-- The statement forms the script issues. -/
inductive Stmt where
  | createWarehouseIfNotExists (n : String)
  | createDatabaseIfNotExists (n : String)
  | createSchemaIfNotExists (n : String)
  | useContext (n : String)
  | createOrReplaceTable (n ddl : String)
  | insertRows (n : String) (rows : List (List String))
  | createOrReplaceView (n ddl : String)

/-- `CREATE ... IF NOT EXISTS` on a plain name list. -/
def addIfAbsent (n : String) (xs : List String) : List String :=
  if n ∈ xs then xs else xs ++ [n]

/-- `CREATE OR REPLACE TABLE`: a new table starts empty; replacing an
existing table drops its rows and installs the new definition. -/
def upsertTable (n ddl : String)
    (ts : List (String × String × List (List String))) :
    List (String × String × List (List String)) :=
  if ts.any (fun t => t.1 == n) then
    ts.map (fun t => if t.1 == n then (n, ddl, ([] : List (List String))) else t)
  else ts ++ [(n, ddl, [])]

/-- `INSERT INTO n ... VALUES ...`: append the rows. -/
def appendRows (n : String) (rows : List (List String))
    (ts : List (String × String × List (List String))) :
    List (String × String × List (List String)) :=
  ts.map (fun t => if t.1 == n then (t.1, t.2.1, t.2.2 ++ rows) else t)

/-- `CREATE OR REPLACE VIEW`. -/
def upsertView (n ddl : String) (vs : List (String × String)) :
    List (String × String) :=
  if vs.any (fun v => v.1 == n) then
    vs.map (fun v => if v.1 == n then (n, ddl) else v)
  else vs ++ [(n, ddl)]

/-- Effect of one statement on durable state. -/
def execStmt (st : WhState) : Stmt → WhState
  | .createWarehouseIfNotExists n => { st with warehouses := addIfAbsent n st.warehouses }
  | .createDatabaseIfNotExists n => { st with databases := addIfAbsent n st.databases }
  | .createSchemaIfNotExists n => { st with schemas := addIfAbsent n st.schemas }
  | .useContext _ => st
  | .createOrReplaceTable n ddl => { st with tables := upsertTable n ddl st.tables }
  | .insertRows n rows => { st with tables := appendRows n rows st.tables }
  | .createOrReplaceView n ddl => { st with views := upsertView n ddl st.views }

/-- Run a statement sequence. -/
def runStmts (st : WhState) (ss : List Stmt) : WhState := ss.foldl execStmt st

/-- The 5 location rows of lines 160-167. -/
def locationRows : List (List String) := [
  ["Equinox Pine Street", "FiDi", "301 Pine St, San Francisco, CA"],
  ["Equinox Beale Street", "FiDi", "350 Beale St, San Francisco, CA"],
  ["Equinox Van Ness", "Van Ness", "1550 Van Ness Ave, San Francisco, CA"],
  ["Equinox Market Street", "Mid-Market", "747 Market St, San Francisco, CA"],
  ["Equinox Palo Alto", "Palo Alto", "440 Portage Ave, Palo Alto, CA"]]

/-- The 9 class-type rows of lines 171-182. -/
def classTypeRows : List (List String) := [
  ["Vinyasa", "60", "TRUE", "Vinyasa 60 (Heated)"],
  ["Vinyasa", "75", "TRUE", "Vinyasa 75 (Heated)"],
  ["Vinyasa", "60", "FALSE", "Vinyasa 60"],
  ["Vinyasa", "75", "FALSE", "Vinyasa 75"],
  ["Yin", "60", "FALSE", "Yin 60"],
  ["Yin", "75", "FALSE", "Yin 75"],
  ["Restorative", "60", "FALSE", "Restorative 60"],
  ["Power", "60", "TRUE", "Power 60 (Heated)"],
  ["Slow Flow", "60", "FALSE", "Slow Flow 60"]]

/-- The 14 theme rows of lines 186-202. -/
def themeRows : List (List String) := [
  ["Hip Openers", "Physical", "Pigeon, lizard, frog, 90/90"],
  ["Heart Opening", "Physical", "Backbends, chest openers"],
  ["Balance", "Physical", "Standing balances, core stability"],
  ["Twists & Detox", "Physical", "Seated and standing twists"],
  ["Core Strength", "Physical", "Plank variations, boat pose"],
  ["Hamstrings", "Physical", "Forward folds, splits prep"],
  ["Letting Go", "Emotional", "Release what no longer serves"],
  ["Self-Compassion", "Emotional", "Kindness toward self"],
  ["Gratitude", "Emotional", "Appreciation practice"],
  ["Courage", "Emotional", "Facing fears, trying new things"],
  ["Joy", "Emotional", "Playfulness, lightness"],
  ["Presence", "Philosophical", "Being here now"],
  ["Impermanence", "Philosophical", "Everything changes"],
  ["Surrender", "Philosophical", "Accepting what is"]]

/-- The 14 sample class tuples of lines 211-226, inserted one statement
each by the loop of lines 228-236. -/
def sampleClassRows : List (List String) := [
  ["DATEADD(day, -45, CURRENT_DATE())", "09:00", "Monday", "1", "1", "1", "Open hips to release tension", "Pigeon", "High", "22", "5", "Great energy!"],
  ["DATEADD(day, -42, CURRENT_DATE())", "18:30", "Thursday", "2", "2", "2", "Open heart to give and receive", "Wheel", "Very High", "28", "5", "Packed class!"],
  ["DATEADD(day, -38, CURRENT_DATE())", "07:00", "Monday", "1", "1", "3", "Find steadiness in instability", "Dancer", "Medium", "15", "4", "Focused group"],
  ["DATEADD(day, -35, CURRENT_DATE())", "12:00", "Thursday", "3", "3", "7", "Release what no longer serves", "Pigeon", "Low", "18", "5", "Emotional releases"],
  ["DATEADD(day, -31, CURRENT_DATE())", "09:00", "Sunday", "2", "2", "1", "Create space in hips", "Flying Pigeon", "Very High", "35", "5", "Sunday packed!"],
  ["DATEADD(day, -28, CURRENT_DATE())", "18:30", "Wednesday", "1", "1", "12", "Be here now", "Crow", "High", "20", "4", "Good arm balance work"],
  ["DATEADD(day, -24, CURRENT_DATE())", "09:00", "Saturday", "3", "2", "2", "Expand capacity for love", "Camel", "High", "25", "5", "Beautiful backbends"],
  ["DATEADD(day, -21, CURRENT_DATE())", "07:00", "Tuesday", "1", "1", "5", "Build strength from center", "Crow", "High", "16", "4", "Core was intense"],
  ["DATEADD(day, -17, CURRENT_DATE())", "18:30", "Thursday", "2", "1", "4", "Rinse and release", "Revolved Triangle", "Medium", "19", "4", "Twist-heavy class"],
  ["DATEADD(day, -14, CURRENT_DATE())", "09:00", "Sunday", "3", "2", "11", "Find joy in practice", "Dancer", "High", "30", "5", "Lots of laughter"],
  ["DATEADD(day, -10, CURRENT_DATE())", "12:00", "Wednesday", "1", "5", "14", "Surrender to what is", "Reclined Butterfly", "Low", "12", "5", "Perfect Yin class"],
  ["DATEADD(day, -7, CURRENT_DATE())", "09:00", "Saturday", "2", "1", "1", "Free the hips", "King Pigeon", "Very High", "32", "5", "Saturday hit!"],
  ["DATEADD(day, -4, CURRENT_DATE())", "18:30", "Tuesday", "1", "1", "3", "Find your center", "Standing Splits", "High", "21", "4", "Balance challenge"],
  ["DATEADD(day, -2, CURRENT_DATE())", "09:00", "Thursday", "3", "1", "9", "Appreciate what you have", "Wheel", "High", "24", "5", "Gratitude resonated"]]

/-- The full statement sequence of `setup_yoga_database.py`, in source
order. -/
def setupScript : List Stmt :=
  [Stmt.createWarehouseIfNotExists "YOGA_WH",
   Stmt.createDatabaseIfNotExists "YOGA_JOURNAL",
   Stmt.useContext "YOGA_JOURNAL",
   Stmt.createSchemaIfNotExists "APP_DATA",
   Stmt.createSchemaIfNotExists "ANALYTICS",
   Stmt.useContext "APP_DATA",
   Stmt.createOrReplaceTable "LOCATIONS"
     "CREATE OR REPLACE TABLE LOCATIONS (location_id INTEGER AUTOINCREMENT PRIMARY KEY, location_name STRING NOT NULL, neighborhood STRING, address STRING, is_active BOOLEAN DEFAULT TRUE, created_at TIMESTAMP DEFAULT CURRENT_TIMESTAMP())",
   Stmt.createOrReplaceTable "CLASS_TYPES"
     "CREATE OR REPLACE TABLE CLASS_TYPES (class_type_id INTEGER AUTOINCREMENT PRIMARY KEY, class_name STRING NOT NULL, duration_minutes INTEGER NOT NULL, is_heated BOOLEAN DEFAULT FALSE, display_name STRING, is_active BOOLEAN DEFAULT TRUE, created_at TIMESTAMP DEFAULT CURRENT_TIMESTAMP())",
   Stmt.createOrReplaceTable "THEMES"
     "CREATE OR REPLACE TABLE THEMES (theme_id INTEGER AUTOINCREMENT PRIMARY KEY, theme_name STRING NOT NULL, category STRING, notes STRING, is_active BOOLEAN DEFAULT TRUE, created_at TIMESTAMP DEFAULT CURRENT_TIMESTAMP())",
   Stmt.createOrReplaceTable "CLASSES_TAUGHT"
     "CREATE OR REPLACE TABLE CLASSES_TAUGHT (class_id INTEGER AUTOINCREMENT PRIMARY KEY, class_date DATE NOT NULL, class_time TIME, day_of_week STRING, location_id INTEGER, class_type_id INTEGER, theme_id INTEGER, custom_theme STRING, intention STRING, peak_pose STRING, sequence_notes VARIANT, energy_level STRING, student_count INTEGER, vibe_rating INTEGER, personal_notes STRING, created_at TIMESTAMP DEFAULT CURRENT_TIMESTAMP())",
   Stmt.createOrReplaceTable "AI_GENERATED_THEMES"
     "CREATE OR REPLACE TABLE AI_GENERATED_THEMES (id INTEGER AUTOINCREMENT PRIMARY KEY, theme_name STRING, theme_approach STRING, created_at TIMESTAMP DEFAULT CURRENT_TIMESTAMP())",
   Stmt.createOrReplaceTable "AI_GENERATED_SEQUENCES"
     "CREATE OR REPLACE TABLE AI_GENERATED_SEQUENCES (id INTEGER AUTOINCREMENT PRIMARY KEY, peak_pose STRING, sequence_outline STRING, created_at TIMESTAMP DEFAULT CURRENT_TIMESTAMP())",
   Stmt.insertRows "LOCATIONS" locationRows,
   Stmt.insertRows "CLASS_TYPES" classTypeRows,
   Stmt.insertRows "THEMES" themeRows] ++
  sampleClassRows.map (fun r => Stmt.insertRows "CLASSES_TAUGHT" [r]) ++
  [Stmt.useContext "ANALYTICS",
   Stmt.createOrReplaceView "LOCATION_STATS"
     "CREATE OR REPLACE VIEW LOCATION_STATS AS SELECT l.location_name, COUNT(*) AS total_classes, ROUND(AVG(c.vibe_rating), 1) AS avg_vibe, ROUND(AVG(c.student_count), 0) AS avg_students FROM APP_DATA.CLASSES_TAUGHT c JOIN APP_DATA.LOCATIONS l ON c.location_id = l.location_id GROUP BY l.location_name",
   Stmt.createOrReplaceView "CLASS_TYPE_STATS"
     "CREATE OR REPLACE VIEW CLASS_TYPE_STATS AS SELECT ct.display_name AS class_type, ct.is_heated, COUNT(*) AS total_classes, ROUND(AVG(c.vibe_rating), 1) AS avg_vibe, ROUND(AVG(c.student_count), 0) AS avg_students FROM APP_DATA.CLASSES_TAUGHT c JOIN APP_DATA.CLASS_TYPES ct ON c.class_type_id = ct.class_type_id GROUP BY ct.display_name, ct.is_heated",
   Stmt.createOrReplaceView "THEME_STATS"
     "CREATE OR REPLACE VIEW THEME_STATS AS SELECT COALESCE(t.theme_name, c.custom_theme) AS theme, COUNT(*) AS times_taught, ROUND(AVG(c.vibe_rating), 1) AS avg_vibe, ROUND(AVG(c.student_count), 0) AS avg_students FROM APP_DATA.CLASSES_TAUGHT c LEFT JOIN APP_DATA.THEMES t ON c.theme_id = t.theme_id WHERE COALESCE(t.theme_name, c.custom_theme) IS NOT NULL GROUP BY COALESCE(t.theme_name, c.custom_theme)",
   Stmt.useContext "APP_DATA"]

/-- The state before the first run. -/
def emptyWh : WhState := ⟨[], [], [], [], []⟩

/-- One full run of the provisioning script. -/
def runSetup (st : WhState) : WhState := runStmts st setupScript

/-- Rows currently in a table. -/
def tableRowsOf (n : String) (st : WhState) : List (List String) :=
  match st.tables.find? (fun t => t.1 == n) with
  | some t => t.2.2
  | none => []

/-! ## The dashboard's 3-class trailing moving average

`yoga_teacher_streamlit_app.py` lines 640-675: the 90-day query returns
per-class student counts ordered by `class_date`; the trend line is
`rolling(window=3, min_periods=1).mean()`, i.e. at each position the mean
of the window of up to three values ending there.  The rolling computation
is embedded operationally: the traversal carries the already-seen values
(most recent first) and averages the window of at most three of them. -/

/-- Arithmetic mean of a list (pandas `mean` over a window). -/
def listMean (l : List ℚ) : ℚ := l.sum / l.length

/-- The window value at one position: the current value consed onto the
reversed history, clipped to window size 3. -/
def rollWin (prev : List ℚ) (x : ℚ) : ℚ := listMean ((x :: prev).take 3)

/-- Traversal underlying `rolling(window=3, min_periods=1).mean()`:
`prev` is the reversed list of values already passed. -/
def rollAux (prev : List ℚ) : List ℚ → List ℚ
  | [] => []
  | x :: t => rollWin prev x :: rollAux (x :: prev) t

/-- The trend-line series of line 670. -/
def rolling3 (xs : List ℚ) : List ℚ := rollAux [] xs

/-- The spec-side trailing average at position `i`: the mean of the counts
at positions `max 0 (i-2) .. i` (with truncating `Nat` subtraction,
`(xs.take (i+1)).drop (i-2)` is exactly that slice). -/
def movAvg (xs : List ℚ) (i : Nat) : ℚ :=
  listMean ((xs.take (i + 1)).drop (i - 2))

theorem listMean_eq_of (a b : List ℚ) (hs : a.sum = b.sum)
    (hl : a.length = b.length) : listMean a = listMean b := by
  simp [listMean, hs, hl]

theorem sum_take_reverse (l : List ℚ) (n : Nat) :
    (l.reverse.take n).sum = (l.drop (l.length - n)).sum := by
  induction l using List.reverseRecOn generalizing n with
  | nil => simp
  | append_singleton l a ih =>
      cases n with
      | zero => simp
      | succ m =>
          rw [List.reverse_append]
          simp only [List.reverse_singleton, List.singleton_append,
            List.take_succ_cons, List.sum_cons]
          rw [ih m, List.length_append]
          have h1 : l.length + [a].length - (m + 1) = l.length - m := by
            simp
          rw [h1, List.drop_append_of_le_length (Nat.sub_le _ _), List.sum_append]
          simp [add_comm]

theorem length_take_reverse (l : List ℚ) (n : Nat) :
    (l.reverse.take n).length = (l.drop (l.length - n)).length := by
  simp only [List.length_take, List.length_reverse, List.length_drop]
  omega

theorem rollWin_eq (pre : List ℚ) (x : ℚ) :
    rollWin pre.reverse x = listMean ((pre ++ [x]).drop (pre.length - 2)) := by
  have hx : x :: pre.reverse = (pre ++ [x]).reverse := by simp
  have hlen : (pre ++ [x]).length - 3 = pre.length - 2 := by
    simp only [List.length_append, List.length_cons, List.length_nil]
    omega
  rw [rollWin, hx, ← hlen]
  exact listMean_eq_of _ _ (sum_take_reverse _ 3) (length_take_reverse _ 3)

theorem rollAux_length (prev xs : List ℚ) :
    (rollAux prev xs).length = xs.length := by
  induction xs generalizing prev with
  | nil => rfl
  | cons x t ih => simp [rollAux, ih]

theorem rollAux_getD (pre xs : List ℚ) (i : Nat) (h : i < xs.length) :
    (rollAux pre.reverse xs).getD i 0 =
      listMean (((pre ++ xs).take (pre.length + i + 1)).drop
        (pre.length + i - 2)) := by
  induction xs generalizing pre i with
  | nil => simp at h
  | cons x t ih =>
      cases i with
      | zero =>
          simp only [rollAux, List.getD_cons_zero, Nat.add_zero]
          have htake : (pre ++ x :: t).take (pre.length + 1) = pre ++ [x] := by
            rw [List.take_append]
            simp [List.take_succ_cons]
          rw [htake]
          exact rollWin_eq pre x
      | succ j =>
          simp only [rollAux, List.getD_cons_succ]
          have hx : x :: pre.reverse = (pre ++ [x]).reverse := by simp
          have hj : j < t.length := by
            simpa using Nat.lt_of_succ_lt_succ h
          rw [hx, ih (pre ++ [x]) j hj]
          have hlen : (pre ++ [x]).length = pre.length + 1 := by simp
          rw [hlen, List.append_assoc, List.singleton_append]
          have h1 : pre.length + 1 + j + 1 = pre.length + (j + 1) + 1 := by omega
          have h2 : pre.length + 1 + j - 2 = pre.length + (j + 1) - 2 := by omega
          rw [h1, h2]

theorem rolling3_getD (xs : List ℚ) (i : Nat) (h : i < xs.length) :
    (rolling3 xs).getD i 0 = movAvg xs i := by
  have := rollAux_getD [] xs i h
  simpa [rolling3, movAvg] using this

/-! ## Claim theorems -/

/-- C7: for every chronologically ordered sequence of per-class student
counts, the trailing moving-average value plotted at position `i` equals
the arithmetic mean of the counts at positions `max 0 (i-2)` through `i`. -/
theorem c7_trailing_moving_average (xs : List ℚ) (i : Nat)
    (h : i < xs.length) : (rolling3 xs).getD i 0 = movAvg xs i :=
  rolling3_getD xs i h

/-- Witness for C7 at the concrete series `[10, 20, 30, 40]`: position 3
carries the mean of the last three counts, `(20+30+40)/3 = 30`. -/
theorem c7_trailing_moving_average_witness :
    3 < ([(10 : ℚ), 20, 30, 40]).length ∧
    (rolling3 [(10 : ℚ), 20, 30, 40]).getD 3 0 = movAvg [(10 : ℚ), 20, 30, 40] 3 ∧
    movAvg [(10 : ℚ), 20, 30, 40] 3 = 30 :=
  ⟨by decide, c7_trailing_moving_average [(10 : ℚ), 20, 30, 40] 3 (by decide),
    by norm_num [movAvg, listMean]⟩

/-- C9: the standing-sequence sub-field is stored as the list obtained by
splitting the entered text on `", "`, unlike warmup, peak and cooldown
which are stored as the entered strings; the history view joins list values
back with `", "`, and joining the split of any string reproduces it, so the
displayed standing text equals the entered text. -/
theorem c9_standing_split_join (w s p c : List Char) (sav : Nat)
    (hs : s ≠ []) :
    lookupKey "standing".data (seqNotesDict w s p c sav) =
      some (JVal.arr (splitCS s)) ∧
    (w ≠ [] → lookupKey "warmup".data (seqNotesDict w s p c sav) =
      some (JVal.str w)) ∧
    (p ≠ [] → lookupKey "peak".data (seqNotesDict w s p c sav) =
      some (JVal.str p)) ∧
    (c ≠ [] → lookupKey "cooldown".data (seqNotesDict w s p c sav) =
      some (JVal.str c)) ∧
    joinCS (splitCS s) = s ∧
    renderVal (JVal.arr (splitCS s)) = s := by
  refine ⟨?_, ?_, ?_, ?_, joinCS_splitCS s, joinCS_splitCS s⟩
  · rcases eq_or_ne w [] with hw | hw <;>
      simp +decide [seqNotesDict, lookupKey, hw, hs]
  · intro hw
    rcases eq_or_ne s [] with h2 | h2 <;>
      simp +decide [seqNotesDict, lookupKey, hw, h2]
  · intro hp
    rcases eq_or_ne w [] with hw | hw <;>
      rcases eq_or_ne s [] with h2 | h2 <;>
      simp +decide [seqNotesDict, lookupKey, hw, h2, hp]
  · intro hc
    rcases eq_or_ne w [] with hw | hw <;>
      rcases eq_or_ne s [] with h2 | h2 <;>
      rcases eq_or_ne p [] with hp | hp <;>
      simp +decide [seqNotesDict, lookupKey, hw, h2, hp, hc]

/-- Witness for C9: entering `Warrior II, Triangle` stores the two-element
list and the history view prints back exactly the entered text. -/
theorem c9_standing_split_join_witness :
    ("Warrior II, Triangle".data ≠ ([] : List Char)) ∧
    lookupKey "standing".data
      (seqNotesDict "Sun A x 3".data "Warrior II, Triangle".data [] [] 5) =
      some (JVal.arr (splitCS "Warrior II, Triangle".data)) ∧
    splitCS "Warrior II, Triangle".data = ["Warrior II".data, "Triangle".data] ∧
    renderVal (JVal.arr (splitCS "Warrior II, Triangle".data)) =
      "Warrior II, Triangle".data :=
  ⟨by decide, (c9_standing_split_join "Sun A x 3".data "Warrior II, Triangle".data
      [] [] 5 (by decide)).1, by decide,
    (c9_standing_split_join "Sun A x 3".data "Warrior II, Triangle".data
      [] [] 5 (by decide)).2.2.2.2.2⟩

/-- C10: a savasana duration of 0 is falsy in Python, so it is omitted from
the sequence-notes document exactly as if unset; a submission whose only
set sub-field is savasana = 0 therefore stores a null column, while the
kept form default of 5 stores a non-null document even with every text
sub-field empty. -/
theorem c10_savasana_zero_absent (w s p c : List Char) :
    lookupKey "savasana_minutes".data (seqNotesDict w s p c 0) = none ∧
    (∀ sav : Nat, (seqNotesDict w s p c sav).filter
        (fun kv => kv.1 != "savasana_minutes".data) = seqNotesDict w s p c 0) ∧
    storedSeqNotes [] [] [] [] 0 = none ∧
    storedSeqNotes [] [] [] [] 5 = some [("savasana_minutes".data, JVal.num 5)] := by
  refine ⟨?_, ?_, by decide, by decide⟩
  · rcases eq_or_ne w [] with hw | hw <;>
      rcases eq_or_ne s [] with h2 | h2 <;>
      rcases eq_or_ne p [] with hp | hp <;>
      rcases eq_or_ne c [] with hc | hc <;>
      simp +decide [seqNotesDict, lookupKey, hw, h2, hp, hc]
  · intro sav
    rcases eq_or_ne w [] with hw | hw <;>
      rcases eq_or_ne s [] with h2 | h2 <;>
      rcases eq_or_ne p [] with hp | hp <;>
      rcases eq_or_ne c [] with hc | hc <;>
      rcases eq_or_ne sav 0 with hv | hv <;>
      simp +decide [seqNotesDict, hw, h2, hp, hc, hv]

/-- C4: the stored semi-structured document carries exactly the sub-fields
that were truthy at entry (empty sub-fields are absent, not present with
empty values); reading the stored document back and rendering each value as
the history view does reproduces the entered text (the standing list joins
back to the entered string); when no sub-field is truthy the column is
stored as null. -/
theorem c4_sequence_notes_roundtrip (w s p c : List Char) (sav : Nat) :
    (storedSeqNotes w s p c sav = none ↔
      (w = [] ∧ s = [] ∧ p = [] ∧ c = [] ∧ sav = 0)) ∧
    ((seqNotesDict w s p c sav).map Prod.fst =
      (if w = [] then [] else ["warmup".data]) ++
      (if s = [] then [] else ["standing".data]) ++
      (if p = [] then [] else ["peak".data]) ++
      (if c = [] then [] else ["cooldown".data]) ++
      (if sav = 0 then [] else ["savasana_minutes".data])) ∧
    (lookupKey "warmup".data (seqNotesDict w s p c sav) =
      if w = [] then none else some (JVal.str w)) ∧
    (lookupKey "standing".data (seqNotesDict w s p c sav) =
      if s = [] then none else some (JVal.arr (splitCS s))) ∧
    (lookupKey "peak".data (seqNotesDict w s p c sav) =
      if p = [] then none else some (JVal.str p)) ∧
    (lookupKey "cooldown".data (seqNotesDict w s p c sav) =
      if c = [] then none else some (JVal.str c)) ∧
    (lookupKey "savasana_minutes".data (seqNotesDict w s p c sav) =
      if sav = 0 then none else some (JVal.num sav)) ∧
    renderVal (JVal.str w) = w ∧
    renderVal (JVal.arr (splitCS s)) = s ∧
    renderVal (JVal.num sav) = natLit sav := by
  refine ⟨?_, ?_, ?_, ?_, ?_, ?_, ?_, rfl, joinCS_splitCS s, rfl⟩ <;>
    (rcases eq_or_ne w [] with hw | hw <;>
      rcases eq_or_ne s [] with h2 | h2 <;>
      rcases eq_or_ne p [] with hp | hp <;>
      rcases eq_or_ne c [] with hc | hc <;>
      rcases eq_or_ne sav 0 with hv | hv <;>
      simp +decide [seqNotesDict, storedSeqNotes, lookupKey, hw, h2, hp, hc, hv])

theorem jsonEscChar_id (c : Char) (h31 : 31 < c.toNat) (h127 : c.toNat < 127)
    (hdq : c ≠ dq) (hb : c ≠ bsl) : jsonEscChar c = [c] := by
  have h10 : c ≠ Char.ofNat 10 := by
    intro he; subst he; exact absurd h31 (by decide)
  have h9 : c ≠ Char.ofNat 9 := by
    intro he; subst he; exact absurd h31 (by decide)
  have h13 : c ≠ Char.ofNat 13 := by
    intro he; subst he; exact absurd h31 (by decide)
  have h8 : c ≠ Char.ofNat 8 := by
    intro he; subst he; exact absurd h31 (by decide)
  have h12 : c ≠ Char.ofNat 12 := by
    intro he; subst he; exact absurd h31 (by decide)
  have hlt : ¬ c.toNat < 32 := by omega
  simp [jsonEscChar, hdq, hb, h10, h9, h13, h8, h12, hlt, h127]

theorem jsonEscStr_id (s : List Char)
    (h : ∀ ch ∈ s, 31 < ch.toNat ∧ ch.toNat < 127 ∧ ch ≠ dq ∧ ch ≠ bsl) :
    jsonEscStr s = s := by
  induction s with
  | nil => rfl
  | cons ch t ih =>
      obtain ⟨hch, ht⟩ := List.forall_mem_cons.1 h
      obtain ⟨h31, h127, hdq, hb⟩ := hch
      simp [jsonEscStr] at ih ⊢
      rw [jsonEscChar_id ch h31 h127 hdq hb, ih ht]
      rfl

set_option maxRecDepth 40000 in
/-- C1 counterexample: a class-log submission whose warmup sub-field is
`don't` produces a statement text that contains `don't` with its single
quote NOT doubled (`don''t` does not occur), while quote doubling would
have produced `don''t` — so not every user-supplied free-text field
interpolated into the statement has its single quotes doubled. -/
theorem c1_cex_subfield_quote_unescaped :
    containsSub ("don".data ++ [qc] ++ "t".data)
      (buildInsertSql ⟨"2024-01-01".data, "09:00:00".data, "Monday".data,
        some 1, some 1, none, [], [], [], "Medium".data, 15, 4, [],
        "don".data ++ [qc] ++ "t".data, [], [], [], 0⟩) = true ∧
    containsSub ("don".data ++ [qc, qc] ++ "t".data)
      (buildInsertSql ⟨"2024-01-01".data, "09:00:00".data, "Monday".data,
        some 1, some 1, none, [], [], [], "Medium".data, 15, 4, [],
        "don".data ++ [qc] ++ "t".data, [], [], [], 0⟩) = false ∧
    escQ ("don".data ++ [qc] ++ "t".data) =
      "don".data ++ [qc, qc] ++ "t".data := by
  refine ⟨by decide, by decide, by decide⟩

/-- C1 (amended): the four scalar free-text fields pass through `escQ`,
which doubles each single-quote character; the sequence-notes sub-fields
are embedded only through the JSON dump, whose character escaping leaves
the single quote — and every printable ASCII character other than the
double quote and the backslash — unchanged, so their quotes are not
doubled. -/
theorem c1_scalar_fields_escaped_subfields_not (s : List Char) :
    escQ s = dupEachQuote s ∧
    countQ (escQ s) = 2 * countQ s ∧
    jsonEscChar qc = [qc] ∧
    ((∀ ch ∈ s, 31 < ch.toNat ∧ ch.toNat < 127 ∧ ch ≠ dq ∧ ch ≠ bsl) →
      jsonEscStr s = s) :=
  ⟨escQ_eq_dupEachQuote s, countQ_escQ s, by decide, jsonEscStr_id s⟩

/-- Witness for C1 (amended) at `don't`: scalar escaping doubles the quote,
JSON embedding leaves the text unchanged. -/
theorem c1_scalar_fields_escaped_subfields_not_witness :
    escQ ("don".data ++ [qc] ++ "t".data) = dupEachQuote ("don".data ++ [qc] ++ "t".data) ∧
    countQ (escQ ("don".data ++ [qc] ++ "t".data)) =
      2 * countQ ("don".data ++ [qc] ++ "t".data) ∧
    jsonEscStr ("don".data ++ [qc] ++ "t".data) = "don".data ++ [qc] ++ "t".data :=
  ⟨(c1_scalar_fields_escaped_subfields_not ("don".data ++ [qc] ++ "t".data)).1,
   (c1_scalar_fields_escaped_subfields_not ("don".data ++ [qc] ++ "t".data)).2.1,
   (c1_scalar_fields_escaped_subfields_not ("don".data ++ [qc] ++ "t".data)).2.2.2
     (by decide)⟩

theorem containsSub_append_right (pat a s : List Char)
    (h : containsSub pat s = true) : containsSub pat (a ++ s) = true := by
  induction a with
  | nil => simpa using h
  | cons ch t ih => simp [containsSub, ih]

theorem containsSub_self_append (pat b : List Char) :
    containsSub pat (pat ++ b) = true := by
  simpa using containsSub_append pat [] b

theorem nlJoin_cons (x : List Char) (xs : List (List Char)) :
    nlJoin (x :: xs) = (Char.ofNat 10 :: x) ++ nlJoin xs := by
  simp [nlJoin]

theorem buildInsertSql_contains_insert (f : LogForm) :
    containsSub "INSERT INTO CLASSES_TAUGHT".data (buildInsertSql f) = true := by
  have hsplit : "INSERT INTO CLASSES_TAUGHT (".data
      = "INSERT INTO CLASSES_TAUGHT".data ++ " (".data := by decide
  rw [buildInsertSql, nlJoin_cons, hsplit, List.cons_append, List.append_assoc]
  exact containsSub_append_right _ [Char.ofNat 10] _
    (containsSub_self_append "INSERT INTO CLASSES_TAUGHT".data _)

/-- C3: if the location selection or the class-type selection is absent,
the submit handler reports a validation error and executes no statement;
when both are present (catalog row ids, hence positive), it executes
exactly one INSERT into CLASSES_TAUGHT. -/
theorem c3_validation_gate (f : LogForm) :
    ((f.locId = none ∨ f.ctId = none) →
      submitClassLog f = (SubmitOutcome.validationError, [])) ∧
    (∀ l c : Nat, f.locId = some l → f.ctId = some c → 0 < l → 0 < c →
      (submitClassLog f).1 = SubmitOutcome.success ∧
      (submitClassLog f).2.length = 1 ∧
      containsSub "INSERT INTO CLASSES_TAUGHT".data
        ((submitClassLog f).2.getD 0 []) = true) := by
  constructor
  · rintro (h | h) <;> simp [submitClassLog, truthyId, h]
  · intro l c hl hc hpl hpc
    have htl : truthyId f.locId = true := by
      simp [truthyId, hl]; omega
    have htc : truthyId f.ctId = true := by
      simp [truthyId, hc]; omega
    refine ⟨?_, ?_, ?_⟩ <;>
      simp [submitClassLog, htl, htc, buildInsertSql_contains_insert f]

/-- A fully filled form with both selections present (location id 1,
class type id 2). -/
def sampleFormOk : LogForm :=
  ⟨"2024-01-01".data, "09:00:00".data, "Monday".data, some 1, some 2, none,
    "Hip Openers".data, "Open hips".data, "Pigeon".data, "Medium".data,
    15, 4, "Great class".data, [], [], [], [], 5⟩

/-- The same form with no location selection. -/
def sampleFormNoLoc : LogForm :=
  ⟨"2024-01-01".data, "09:00:00".data, "Monday".data, none, some 2, none,
    "Hip Openers".data, "Open hips".data, "Pigeon".data, "Medium".data,
    15, 4, "Great class".data, [], [], [], [], 5⟩

/-- Witness for C3: the missing-location form is rejected with no
statement; the complete form produces exactly one INSERT. -/
theorem c3_validation_gate_witness :
    submitClassLog sampleFormNoLoc = (SubmitOutcome.validationError, []) ∧
    ((submitClassLog sampleFormOk).1 = SubmitOutcome.success ∧
      (submitClassLog sampleFormOk).2.length = 1 ∧
      containsSub "INSERT INTO CLASSES_TAUGHT".data
        ((submitClassLog sampleFormOk).2.getD 0 []) = true) :=
  ⟨(c3_validation_gate sampleFormNoLoc).1 (Or.inl rfl),
   (c3_validation_gate sampleFormOk).2 1 2 rfl rfl (by decide) (by decide)⟩

/-- C5 counterexample: typing `hip openers` links the catalog theme
`Hip Openers` (case-insensitive match, line 429-435), and the effective
theme `COALESCE(t.theme_name, c.custom_theme)` then displays the catalog
name, not the free-text value — so when both a catalog link and non-empty
free text are present, the catalog theme name takes precedence, refuting
the claimed free-text precedence. -/
theorem c5_cex_catalog_name_wins :
    matchedThemeId "hip openers".data [(1, "Hip Openers".data)] = some 1 ∧
    sqlCoalesce (some "Hip Openers".data) (some "hip openers".data) =
      some "Hip Openers".data ∧
    "Hip Openers".data ≠ "hip openers".data :=
  ⟨by decide, rfl, by decide⟩

/-- C5 (amended): the effective theme is the catalog theme name whenever a
catalog theme is linked — the free-text value is used only when no catalog
theme is linked (SQL `COALESCE(t.theme_name, c.custom_theme)`). -/
theorem c5_effective_theme_catalog_first (n : List Char)
    (ct : Option (List Char)) :
    sqlCoalesce (some n) ct = some n ∧
    sqlCoalesce none ct = ct :=
  ⟨rfl, rfl⟩

/-- C6 counterexample: a failure of the history-browser read is surfaced
with `st.error("Error loading history: ...")`, not an informational
empty-state message — so not every read view swallows exceptions into an
informational message. -/
theorem c6_cex_history_error :
    onReadFailure ReadPath.historyBrowser "boom".data =
      FailureUI.errorMsg ("Error loading history: ".data ++ "boom".data) ∧
    (onReadFailure ReadPath.historyBrowser "boom".data).isInfoMsg = false :=
  ⟨rfl, rfl⟩

/-- C6 (amended): every dashboard read path (overall stats, per-location
and per-type rollups, the 90-day time series) downgrades a read exception
to an informational empty-state message; the history browser is the one
read path that surfaces it as an error message instead. -/
theorem c6_read_failure_info_except_history (p : ReadPath) (e : List Char) :
    (onReadFailure p e).isInfoMsg = true ↔ p ≠ ReadPath.historyBrowser := by
  cases p <;> simp [onReadFailure, FailureUI.isInfoMsg]

/-- C8: two search terms that agree after lower-casing produce the same
row-level match results and the same filtered row set; the match is a
case-insensitive substring test against the effective theme, the personal
notes and the peak pose columns. -/
theorem c8_search_case_insensitive (t1 t2 : List Char)
    (h : lowerL t1 = lowerL t2) (rows : List HistRow) :
    (∀ r, rowMatchesSearch t1 r = rowMatchesSearch t2 r) ∧
    searchFilter t1 rows = searchFilter t2 rows := by
  have hm : ∀ r, rowMatchesSearch t1 r = rowMatchesSearch t2 r := by
    intro r
    simp [rowMatchesSearch, h]
  refine ⟨hm, ?_⟩
  by_cases h1 : t1 = []
  · have h2 : t2 = [] := by
      rw [h1] at h
      cases t2 with
      | nil => rfl
      | cons a b => simp [lowerL] at h
    simp [searchFilter, h1, h2]
  · have h2 : t2 ≠ [] := by
      intro he
      rw [he] at h
      cases t1 with
      | nil => exact h1 rfl
      | cons a b => simp [lowerL] at h
    simp only [searchFilter, if_neg h1, if_neg h2]
    exact List.filter_congr (fun r _ => hm r)

/-- Witness for C8: `HIP` and `hip` agree after lower-casing and return the
identical row set — exactly the record whose theme contains `Hip Openers`. -/
theorem c8_search_case_insensitive_witness :
    lowerL "HIP".data = lowerL "hip".data ∧
    searchFilter "HIP".data
        [⟨some "Hip Openers".data, none, none, none⟩,
         ⟨none, none, none, some "Crow".data⟩] =
      searchFilter "hip".data
        [⟨some "Hip Openers".data, none, none, none⟩,
         ⟨none, none, none, some "Crow".data⟩] ∧
    searchFilter "hip".data
        [⟨some "Hip Openers".data, none, none, none⟩,
         ⟨none, none, none, some "Crow".data⟩] =
      [⟨some "Hip Openers".data, none, none, none⟩] :=
  ⟨by decide,
   (c8_search_case_insensitive "HIP".data "hip".data (by decide)
     [⟨some "Hip Openers".data, none, none, none⟩,
      ⟨none, none, none, some "Crow".data⟩]).2,
   by decide⟩

set_option maxRecDepth 100000 in
/-- C2 counterexample: after running the provisioning script twice, the
LOCATIONS table holds its 5 reference rows exactly once — not the claimed
second copy (10 rows) — because `CREATE OR REPLACE TABLE` drops the rows of
the first run; the same holds for the other seeded tables. -/
theorem c2_cex_second_run_not_duplicating :
    tableRowsOf "LOCATIONS" (runSetup (runSetup emptyWh)) = locationRows ∧
    (tableRowsOf "LOCATIONS" (runSetup (runSetup emptyWh))).length = 5 ∧
    ((tableRowsOf "LOCATIONS" (runSetup (runSetup emptyWh))).length = 10 → False) ∧
    (tableRowsOf "CLASS_TYPES" (runSetup (runSetup emptyWh))).length = 9 ∧
    (tableRowsOf "THEMES" (runSetup (runSetup emptyWh))).length = 14 ∧
    (tableRowsOf "CLASSES_TAUGHT" (runSetup (runSetup emptyWh))).length = 14 := by
  decide

set_option maxRecDepth 100000 in
/-- C2 (amended): a second run leaves the whole durable state unchanged —
table definitions, view definitions, and the seeded rows: `CREATE OR
REPLACE TABLE` drops and recreates each table before the unconditional
inserts repeat, so data is reset, not duplicated. -/
theorem c2_second_run_resets :
    runSetup (runSetup emptyWh) = runSetup emptyWh := by
  decide
